import Mathlib

/-
  Shallow embedding of the SAT>IP VDR plugin device core
  (src/device.c together with its header, class cSatipDevice).

  Modelling conventions:
  * Machine integers that only carry byte counts or PIDs are modelled as
    Nat or Int, matching the value ranges exercised by the code.
  * The ring buffer cRingBufferLinear is modelled as the list of buffered
    bytes: Get returns the whole contiguous run, Del drops from the front,
    Available is the length.  (Wrap-around of the linear ring only shortens
    the run Get reports; the claims under study are about the run handed
    out, so the list model is faithful for them.)
  * External collaborators (the tuner session, the discovery service, the
    section-filter handler, the CAM slot) are not implemented in
    src/device.c; they are modelled as oracle functions passed in, and the
    calls the device issues to the session are recorded in an explicit
    trace, so that statements such as "no call reaches the session" are
    expressible.
  * Statistics mix-ins (AddPidStatistic, AddBufferStatistic) and debug
    logging only feed diagnostics strings; they are not modelled, except
    for the sync-skip diagnostic which claim C7 is about (modelled as an
    explicit log of skipped spans).
-/

set_option maxRecDepth 100000

namespace Satip

/-- TS packet size in bytes (TS_SIZE from the VDR framework headers). -/
def TS_SIZE : Nat := 188

/-- TS sync byte 0x47 (TS_SYNC_BYTE from the VDR framework headers). -/
def TS_SYNC_BYTE : Nat := 0x47

/-- PID type "other" from VDR's ePidType enumeration (device.h of VDR);
the device passes it on section-filter PIDs. -/
def ptOther : Int := 5

/-- VDR's IDLEPRIORITY constant (-MAXPRIORITY - 1 = -100, config.h of VDR). -/
def IDLEPRIORITY : Int := -100

/-- VDR's CA_ENCRYPTED_MIN constant (0x0100, channels.h of VDR). -/
def CA_ENCRYPTED_MIN : Int := 0x0100

/-- Tuning timeout in milliseconds, eTuningTimeoutMs from device.h. -/
def eTuningTimeoutMs : Nat := 1000

/-- The fields of VDR's cChannel that src/device.c reads: identity of the
transponder (source, transponder, parameter string) and the PID/CA data
used by ProvidesChannel and the CI helpers.  A default-constructed value
is the empty / no-channel state. -/
structure Channel where
  source : Int := 0
  transponder : Int := 0
  parameters : String := ""
  vpid : Int := 0
  apid0 : Int := 0
  dpid0 : Int := 0
  ca : Int := 0
deriving DecidableEq

/-- The empty (default-constructed) channel, the no-channel state. -/
def emptyChannel : Channel := {}

/-- Modelled from the spec: the SectionFilterTable capability
(sectionfilter.c is not under src/).  A finite table of open section
filters, each row binding a handle to the PID it filters. -/
abbrev FilterTable := List (Int × Int)

/-- Modelled from the spec: SectionFilterTable.pidOf - the PID bound to a
handle, -1 when the handle is not registered. -/
def ftGetPid (ft : FilterTable) (handle : Int) : Int :=
  match ft.find? (fun row => row.1 = handle) with
  | some row => row.2
  | none => -1

/-- Modelled from the spec: SectionFilterTable.exists - whether any open
section filter still needs the given PID. -/
def ftExists (ft : FilterTable) (pid : Int) : Bool :=
  ft.any (fun row => row.2 = pid)

/-- Modelled from the spec: SectionFilterTable.close - unregister a handle
from the table. -/
def ftClose (ft : FilterTable) (handle : Int) : FilterTable :=
  ft.filter (fun row => row.1 ≠ handle)

/-- VDR's cPidHandle as far as cSatipDevice::SetPid reads it: the PID and
its consumer reference count (handleP->used). -/
structure PidHandle where
  pid : Int
  used : Nat
deriving DecidableEq

/-- The mutable state of one cSatipDevice that the claims under study
touch.  tsBuffer is the buffered byte content (none models a null
tsBuffer pointer), tunerPresent models the tuner pointer being non-null,
filterHandler models the SectionFilterHandler pointer, and syncSkipLog
records the sync-skip diagnostics GetData reports. -/
structure DeviceState where
  deviceIndex : Nat
  bytesDelivered : Nat
  dvrIsOpen : Bool
  checkTsBufferM : Bool
  serverString : String
  currentChannel : Channel
  tsBuffer : Option (List Nat)
  tunerPresent : Bool
  filterHandler : Option FilterTable
  syncSkipLog : List Nat
deriving DecidableEq

/-- The calls the device issues to its external collaborators; recorded in
a trace so that "no call reaches the session" is a statement about the
trace being empty. -/
inductive ExtCall where
  | setSource (server : Option Nat) (transponder : Int) (params : Option String) (deviceIndex : Nat)
  | setPid (pid : Int) (pidType : Int) (onP : Bool)
  | assignServer (deviceIndex : Nat) (source : Int) (transponder : Int) (system : Nat)
  | timedWait (timeoutMs : Nat)
deriving DecidableEq

/-- The external oracles SetChannelDevice consults: the parameter
translator GetTransponderUrlParameters (param.c), the delivery-system
parser cDvbTransponderParameters (VDR), the discovery service
(AssignServer / GetServerString) and the session's acceptance of a
SetSource command. -/
structure SetChannelEnv where
  getTransponderUrlParameters : Channel → String
  paramsSystem : String → Nat
  assignServer : Nat → Int → Int → Nat → Option Nat
  getServerString : Nat → String
  setSourceAccepts : Nat → Int → String → Nat → Bool

/-- cSatipDevice::SetChannelDevice (src/device.c lines 348-392).
Returns the bool result, the updated device state, and the trace of
external calls issued.  tunedSignalled is the outcome of the
tunerLocked.TimedWait call (whether the condition variable was signalled
before eTuningTimeoutMs elapsed); the code discards that outcome. -/
def SetChannelDevice (env : SetChannelEnv) (s : DeviceState)
    (channel : Option Channel) (liveView : Bool) (tunedSignalled : Bool) :
    Bool × DeviceState × List ExtCall :=
  if s.tunerPresent = false then
    (false, s, [])
  else
    match channel with
    | some ch =>
        let params := env.getTransponderUrlParameters ch
        if params = "" then
          (false, s, [])
        else
          match env.assignServer s.deviceIndex ch.source ch.transponder
              (env.paramsSystem ch.parameters) with
          | none =>
              (false, s,
               [ExtCall.assignServer s.deviceIndex ch.source ch.transponder
                  (env.paramsSystem ch.parameters)])
          | some server =>
              let s1 := { s with serverString := env.getServerString server }
              if env.setSourceAccepts server ch.transponder params s.deviceIndex then
                (true, { s1 with currentChannel := ch },
                 [ExtCall.assignServer s.deviceIndex ch.source ch.transponder
                    (env.paramsSystem ch.parameters),
                  ExtCall.setSource (some server) ch.transponder (some params) s.deviceIndex,
                  ExtCall.timedWait eTuningTimeoutMs])
              else
                (true, s1,
                 [ExtCall.assignServer s.deviceIndex ch.source ch.transponder
                    (env.paramsSystem ch.parameters),
                  ExtCall.setSource (some server) ch.transponder (some params) s.deviceIndex])
    | none =>
        (true, { s with serverString := "" },
         [ExtCall.setSource none 0 none s.deviceIndex])

/-- cSatipDevice::SetPid (src/device.c lines 401-411).  sessionSetPid is
the tuner session's cSatipTuner::SetPid oracle; the trace records the
calls forwarded to it. -/
def SetPid (s : DeviceState) (sessionSetPid : Int → Int → Bool → Bool)
    (handle : Option PidHandle) (pidType : Int) (onP : Bool) : Bool × List ExtCall :=
  match handle with
  | some h =>
      if s.tunerPresent = true ∧ 0 ≤ h.pid ∧ h.pid ≤ 8191 then
        if onP then
          (sessionSetPid h.pid pidType true, [ExtCall.setPid h.pid pidType true])
        else
          match s.filterHandler with
          | some ft =>
              if h.used = 0 ∧ ftExists ft h.pid = false then
                (sessionSetPid h.pid pidType false, [ExtCall.setPid h.pid pidType false])
              else
                (true, [])
          | none => (true, [])
      else
        (true, [])
  | none => (true, [])

/-- Whether the PID is still needed by an open section filter, the
condition SetPid's disable path consults. -/
def pidStillFiltered (s : DeviceState) (pid : Int) : Bool :=
  match s.filterHandler with
  | some ft => ftExists ft pid
  | none => false

/-- cSatipDevice::CloseFilter (src/device.c lines 425-434).  Returns the
updated state and the trace of session calls. -/
def CloseFilter (s : DeviceState) (handle : Int) : DeviceState × List ExtCall :=
  match s.filterHandler with
  | some ft =>
      let pid := ftGetPid ft handle
      if s.tunerPresent = true then
        ({ s with filterHandler := some (ftClose ft handle) },
         [ExtCall.setPid pid ptOther false])
      else
        ({ s with filterHandler := some (ftClose ft handle) }, [])
  | none => (s, [])

/-- The scan loop inside cSatipDevice::GetData (src/device.c lines
547-552): starting at index i, find the index of the first TS sync byte
in the remaining bytes l; if none is found, count (the full run length)
is kept. -/
def scanLoop (l : List Nat) (i : Nat) (count : Nat) : Nat :=
  match l with
  | [] => count
  | b :: rest => if b = TS_SYNC_BYTE then i else scanLoop rest (i + 1) count

/-- cSatipDevice::GetData (src/device.c lines 533-566).  Returns the run
handed to the caller (the pointer p together with count, modelled as the
list of the count available bytes; none models a NULL return), the
updated device state, and the count stored through availableP (0 when no
run is returned, matching the callers which force available to 0 then). -/
def GetData (s : DeviceState) (checkTsBuffer : Bool) :
    Option (List Nat) × DeviceState × Nat :=
  if s.dvrIsOpen = true then
    match s.tsBuffer with
    | some buf0 =>
        let buf := buf0.drop s.bytesDelivered
        let s1 := { s with tsBuffer := some buf, bytesDelivered := 0 }
        if checkTsBuffer = true ∧ buf.length < TS_SIZE then
          (none, s1, 0)
        else
          let count := buf.length
          if TS_SIZE ≤ count then
            if buf.head? ≠ some TS_SYNC_BYTE then
              let skip := scanLoop (buf.drop 1) 1 count
              (none,
               { s1 with
                   tsBuffer := some (buf.drop skip),
                   syncSkipLog := s.syncSkipLog ++ [skip] }, 0)
            else
              (some buf, { s1 with bytesDelivered := TS_SIZE }, count)
          else
            (none, s1, 0)
    | none => (none, s, 0)
  else
    (none, s, 0)

/-- cSatipDevice::SkipData (src/device.c lines 568-574): record countP as
delivered-but-unreleased bytes.  The AddBufferStatistic diagnostic call
is not modelled. -/
def SkipData (s : DeviceState) (countP : Nat) : DeviceState :=
  { s with bytesDelivered := countP }

/-- VDR's cCamSlot as far as cSatipDevice::GetTSPacket consults it.
Decrypt takes the data pointer and the count by reference (int and Count
in VDR's signature); it is modelled as returning the possibly transformed
data together with the updated count. -/
structure CamSlot where
  wantsTsData : Bool
  decrypt : Option (List Nat) → Nat → Option (List Nat) × Nat

/-- cSatipDevice::GetTSPacket (src/device.c lines 576-599).
detachedMode is SatipConfig.GetDetachedMode(), cam is the CamSlot()
pointer.  Returns the bool result, the data handed back through dataP
(none models NULL; in the detached branch dataP is left unassigned by the
code, modelled as none), and the updated state. -/
def GetTSPacket (s : DeviceState) (detachedMode : Bool) (cam : Option CamSlot) :
    Bool × Option (List Nat) × DeviceState :=
  if detachedMode = true then
    (false, none, s)
  else
    match s.tsBuffer with
    | some _ =>
        match cam with
        | some cs =>
            if cs.wantsTsData = true then
              let r := GetData s s.checkTsBufferM
              let available := if r.1.isNone then 0 else r.2.2
              let dc := cs.decrypt r.1 available
              let s2 := SkipData r.2.1 dc.2
              (true, dc.1, { s2 with checkTsBufferM := dc.1.isSome })
            else
              let r := GetData s false
              (true, r.1, r.2.1)
        | none =>
            let r := GetData s false
            (true, r.1, r.2.1)
    | none => (true, none, s)

/-- The oracles cSatipDevice::ProvidesChannel consults: the outcome of
ProvidesTransponder for a channel, the device's current priority, whether
it is receiving, IsTunedToTransponder, HasPid, the CamSlot and its
CanDecrypt answer, and the frontend-reuse configuration flag. -/
structure ProvidesEnv where
  providesTransponder : Channel → Bool
  devPriority : Int
  receiving : Bool
  tunedToTransponder : Channel → Bool
  hasPid : Int → Bool
  camSlotPresent : Bool
  canDecrypt : Channel → Bool
  frontendReuse : Bool

/-- cSatipDevice::ProvidesChannel (src/device.c lines 268-302).  Returns
the bool result together with the needsDetachReceivers flag written
through needsDetachReceiversP. -/
def ProvidesChannel (e : ProvidesEnv) (channel : Option Channel) (priority : Int) :
    Bool × Bool :=
  match channel with
  | some ch =>
      if e.providesTransponder ch = true then
        let hasPriority := priority = IDLEPRIORITY ∨ e.devPriority < priority
        if IDLEPRIORITY < priority then
          if e.receiving = true then
            if e.tunedToTransponder ch = true then
              if (ch.vpid ≠ 0 ∧ e.hasPid ch.vpid = false) ∨
                 (ch.apid0 ≠ 0 ∧ e.hasPid ch.apid0 = false) ∨
                 (ch.dpid0 ≠ 0 ∧ e.hasPid ch.dpid0 = false) then
                if e.camSlotPresent = true ∧ CA_ENCRYPTED_MIN ≤ ch.ca then
                  if e.canDecrypt ch = true then (true, false)
                  else (decide hasPriority, true)
                else (true, false)
              else (e.frontendReuse, false)
            else (decide hasPriority, true)
          else (decide hasPriority, false)
        else (decide hasPriority, false)
      else (false, false)
  | none => (false, false)

/-- A well-formed 188-byte TS packet: sync byte followed by 187 zero bytes. -/
def pkt188 : List Nat := TS_SYNC_BYTE :: List.replicate 187 0

/-- A device state used by concrete evaluations: DVR open, two aligned TS
packets buffered, nothing delivered yet. -/
def sAligned : DeviceState :=
  { deviceIndex := 0
    bytesDelivered := 0
    dvrIsOpen := true
    checkTsBufferM := false
    serverString := ""
    currentChannel := emptyChannel
    tsBuffer := some (pkt188 ++ pkt188)
    tunerPresent := true
    filterHandler := none
    syncSkipLog := [] }

/-- A CAM slot that wants raw TS data and whose decrypt transform hands
the data back unchanged, leaving the count as given (the identity
transform of the DecryptionSlot interface). -/
def camIdentity : CamSlot :=
  { wantsTsData := true
    decrypt := fun d c => (d, c) }

/-- A channel with a non-empty transponder identity, distinct from the
empty channel. -/
def chanOne : Channel := { source := 1, transponder := 11836, parameters := "h" }

/-- A device state tuned to chanOne with a cached server identity. -/
def sTunedOne : DeviceState :=
  { sAligned with currentChannel := chanOne, serverString := "srv 1" }

/-- An environment whose parameter translator rejects every channel
(returns the empty string) and whose discovery assigns no server. -/
def envTrivial : SetChannelEnv :=
  { getTransponderUrlParameters := fun _ => ""
    paramsSystem := fun _ => 0
    assignServer := fun _ _ _ _ => none
    getServerString := fun _ => ""
    setSourceAccepts := fun _ _ _ _ => false }

/-- An environment that translates every channel, assigns server 7 and
whose session accepts every tune command. -/
def envAccepting : SetChannelEnv :=
  { getTransponderUrlParameters := fun _ => "fe=1"
    paramsSystem := fun _ => 0
    assignServer := fun _ _ _ _ => some 7
    getServerString := fun _ => "server 7"
    setSourceAccepts := fun _ _ _ _ => true }

/-- Like envAccepting but discovery can assign no server. -/
def envNoServer : SetChannelEnv :=
  { envAccepting with assignServer := fun _ _ _ _ => none }

/-- Two open section filters on distinct handles but the same PID 100. -/
def ftTwo : FilterTable := [(1, 100), (2, 100)]

/-- A device state with the two-filter table installed. -/
def sTwoFilters : DeviceState := { sAligned with filterHandler := some ftTwo }

/-- C1, counterexample: a null-channel SetChannelDevice on a device whose
CurrentChannel is the non-empty chanOne returns success but leaves
CurrentChannel equal to chanOne - it is not cleared to the
empty/no-channel state, refuting the claim as stated. -/
theorem C1_counterexample :
    (SetChannelDevice envTrivial sTunedOne none false false).1 = true ∧
    (SetChannelDevice envTrivial sTunedOne none false false).2.1.currentChannel = chanOne ∧
    chanOne ≠ emptyChannel := by
  decide

/-- C1, amended: SetChannelDevice with a null channel on a device whose
tuner exists commands the session to release its source, clears the
cached server identity string and returns success, while leaving
CurrentChannel unchanged (it is not cleared). -/
theorem C1_null_channel_releases_source
    (env : SetChannelEnv) (s : DeviceState) (lv b : Bool)
    (htuner : s.tunerPresent = true) :
    SetChannelDevice env s none lv b =
      (true, { s with serverString := "" },
       [ExtCall.setSource none 0 none s.deviceIndex]) := by
  simp [SetChannelDevice, htuner]

/-- C1, witness for the amended theorem at a concrete state. -/
theorem C1_null_channel_releases_source_witness :
    sTunedOne.tunerPresent = true ∧
    SetChannelDevice envTrivial sTunedOne none false false =
      (true, { sTunedOne with serverString := "" },
       [ExtCall.setSource none 0 none sTunedOne.deviceIndex]) :=
  ⟨rfl, C1_null_channel_releases_source envTrivial sTunedOne false false rfl⟩

/-- C2, counterexample: closing filter handle 1 (bound to PID 100) while
the second open filter (handle 2) still needs PID 100 nevertheless issues
the disable call to the session, refuting the claim that the PID is
disabled only when no longer needed. -/
theorem C2_counterexample :
    (CloseFilter sTwoFilters 1).2 = [ExtCall.setPid 100 ptOther false] ∧
    (CloseFilter sTwoFilters 1).1.filterHandler = some [(2, 100)] ∧
    ftExists [(2, 100)] 100 = true := by
  decide

/-- C2, amended: CloseFilter looks up the PID bound to the handle and,
when the tuner exists, unconditionally issues the disable for it at the
session - regardless of whether the PID is still needed - and then
unregisters the handle from the filter table. -/
theorem C2_close_filter_unconditional_disable
    (s : DeviceState) (ft : FilterTable) (handle : Int)
    (htuner : s.tunerPresent = true) (hft : s.filterHandler = some ft) :
    CloseFilter s handle =
      ({ s with filterHandler := some (ftClose ft handle) },
       [ExtCall.setPid (ftGetPid ft handle) ptOther false]) := by
  simp [CloseFilter, hft, htuner]

/-- C2, witness for the amended theorem at a concrete state. -/
theorem C2_close_filter_unconditional_disable_witness :
    sTwoFilters.tunerPresent = true ∧ sTwoFilters.filterHandler = some ftTwo ∧
    CloseFilter sTwoFilters 2 =
      ({ sTwoFilters with filterHandler := some (ftClose ftTwo 2) },
       [ExtCall.setPid (ftGetPid ftTwo 2) ptOther false]) :=
  ⟨rfl, rfl, C2_close_filter_unconditional_disable sTwoFilters ftTwo 2 rfl rfl⟩

/-- C3: once the session accepts the tune command (SetSource returns
true) for a translatable channel with an assigned server, SetChannelDevice
returns success whatever the outcome of the timed condition-variable wait
was - the tuning timeout never by itself turns the result into failure. -/
theorem C3_accepted_tune_returns_success
    (env : SetChannelEnv) (s : DeviceState) (ch : Channel) (srv : Nat) (lv : Bool)
    (htuner : s.tunerPresent = true)
    (hparams : env.getTransponderUrlParameters ch ≠ "")
    (hassign : env.assignServer s.deviceIndex ch.source ch.transponder
        (env.paramsSystem ch.parameters) = some srv)
    (haccept : env.setSourceAccepts srv ch.transponder
        (env.getTransponderUrlParameters ch) s.deviceIndex = true) :
    ∀ tunedSignalled : Bool,
      (SetChannelDevice env s (some ch) lv tunedSignalled).1 = true := by
  intro b
  simp [SetChannelDevice, htuner, hparams, hassign, haccept]

/-- C3, witness: concrete accepted tune where the condition variable was
never signalled before the timeout; the call still returns success. -/
theorem C3_accepted_tune_returns_success_witness :
    envAccepting.getTransponderUrlParameters chanOne ≠ "" ∧
    envAccepting.assignServer sAligned.deviceIndex chanOne.source chanOne.transponder
        (envAccepting.paramsSystem chanOne.parameters) = some 7 ∧
    (SetChannelDevice envAccepting sAligned (some chanOne) true false).1 = true :=
  ⟨by decide, rfl,
   C3_accepted_tune_returns_success envAccepting sAligned chanOne 7 true rfl
     (by decide) rfl rfl false⟩

/-- C4: SetPid on a handle whose PID lies outside 0..8191 returns success
and issues no call to the session. -/
theorem C4_setpid_out_of_range_noop
    (s : DeviceState) (sess : Int → Int → Bool → Bool) (h : PidHandle)
    (pidType : Int) (onP : Bool) (hout : h.pid < 0 ∨ 8191 < h.pid) :
    SetPid s sess (some h) pidType onP = (true, []) := by
  have hcond : ¬ (s.tunerPresent = true ∧ 0 ≤ h.pid ∧ h.pid ≤ 8191) := by
    rintro ⟨-, h1, h2⟩
    rcases hout with h3 | h3 <;> omega
  simp [SetPid, hcond]

/-- C4, witness at pid = 8192. -/
theorem C4_setpid_out_of_range_noop_witness :
    ((8192 : Int) < 0 ∨ 8191 < (8192 : Int)) ∧
    SetPid sAligned (fun _ _ _ => true)
      (some { pid := 8192, used := 0 }) 1 true = (true, []) :=
  ⟨Or.inr (by decide),
   C4_setpid_out_of_range_noop sAligned (fun _ _ _ => true)
     { pid := 8192, used := 0 } 1 true (Or.inr (by decide))⟩

/-- C5: for an in-range PID with the tuner present, enabling always
forwards to the session; a disable call reaches the session only if the
handle has no remaining consumer and no open section filter still needs
the PID, and otherwise (handle in use or PID still filtered) the disable
is swallowed: the call returns success with no session call. -/
theorem C5_setpid_filter_aware_disable
    (s : DeviceState) (sess : Int → Int → Bool → Bool) (h : PidHandle) (pidType : Int)
    (htuner : s.tunerPresent = true) (hlo : 0 ≤ h.pid) (hhi : h.pid ≤ 8191) :
    (SetPid s sess (some h) pidType true).2 = [ExtCall.setPid h.pid pidType true] ∧
    ((SetPid s sess (some h) pidType false).2 ≠ [] →
       h.used = 0 ∧ pidStillFiltered s h.pid = false) ∧
    ((h.used ≠ 0 ∨ pidStillFiltered s h.pid = true) →
       SetPid s sess (some h) pidType false = (true, [])) := by
  have hcond : s.tunerPresent = true ∧ 0 ≤ h.pid ∧ h.pid ≤ 8191 := ⟨htuner, hlo, hhi⟩
  refine ⟨by simp [SetPid, hcond], ?_, ?_⟩
  · intro hne
    cases hft : s.filterHandler with
    | none => simp [SetPid, hcond, hft] at hne
    | some ft =>
        by_cases hsw : h.used = 0 ∧ ftExists ft h.pid = false
        · exact ⟨hsw.1, by simp [pidStillFiltered, hft, hsw.2]⟩
        · simp [SetPid, hcond, hft, hsw] at hne
  · intro hkeep
    cases hft : s.filterHandler with
    | none => simp [SetPid, hcond, hft]
    | some ft =>
        have hsw : ¬ (h.used = 0 ∧ ftExists ft h.pid = false) := by
          rcases hkeep with hk | hk
          · rintro ⟨h1, -⟩; exact hk h1
          · rintro ⟨-, h2⟩
            simp only [pidStillFiltered, hft] at hk
            rw [hk] at h2
            cases h2
        simp [SetPid, hcond, hft, hsw]

/-- C5, witness: enable forwards; a disable while the PID is still
filtered is swallowed. -/
theorem C5_setpid_filter_aware_disable_witness :
    sTwoFilters.tunerPresent = true ∧
    (SetPid sTwoFilters (fun _ _ _ => true)
       (some { pid := 100, used := 0 }) 1 true).2 = [ExtCall.setPid 100 1 true] ∧
    SetPid sTwoFilters (fun _ _ _ => true)
       (some { pid := 100, used := 0 }) 1 false = (true, []) := by
  have h := C5_setpid_filter_aware_disable sTwoFilters (fun _ _ _ => true)
    { pid := 100, used := 0 } 1 rfl (by decide) (by decide)
  exact ⟨rfl, h.1, h.2.2 (Or.inr (by decide))⟩

/-- C9: an untranslatable channel makes SetChannelDevice fail immediately
with no external call issued and no state mutated; and when discovery can
assign no server the call fails leaving the prior state intact (only the
failed assignment request was issued). -/
theorem C9_translation_and_assignment_failures
    (env : SetChannelEnv) (s : DeviceState) (ch : Channel) (lv b : Bool) :
    (env.getTransponderUrlParameters ch = "" →
       SetChannelDevice env s (some ch) lv b = (false, s, [])) ∧
    (s.tunerPresent = true →
     env.getTransponderUrlParameters ch ≠ "" →
     env.assignServer s.deviceIndex ch.source ch.transponder
         (env.paramsSystem ch.parameters) = none →
       SetChannelDevice env s (some ch) lv b =
         (false, s,
          [ExtCall.assignServer s.deviceIndex ch.source ch.transponder
             (env.paramsSystem ch.parameters)])) := by
  constructor
  · intro hp
    cases htp : s.tunerPresent <;> simp [SetChannelDevice, htp, hp]
  · intro htuner hp hassign
    simp [SetChannelDevice, htuner, hp, hassign]

/-- C9, witness: both failure scenarios at concrete inputs. -/
theorem C9_translation_and_assignment_failures_witness :
    envTrivial.getTransponderUrlParameters chanOne = "" ∧
    SetChannelDevice envTrivial sTunedOne (some chanOne) false false =
      (false, sTunedOne, []) ∧
    SetChannelDevice envNoServer sAligned (some chanOne) false false =
      (false, sAligned,
       [ExtCall.assignServer sAligned.deviceIndex chanOne.source chanOne.transponder
          (envNoServer.paramsSystem chanOne.parameters)]) :=
  ⟨rfl,
   (C9_translation_and_assignment_failures envTrivial sTunedOne chanOne false false).1 rfl,
   (C9_translation_and_assignment_failures envNoServer sAligned chanOne false false).2
     rfl (by decide) rfl⟩

/-- A ProvidesChannel environment: the transponder is reachable, the
device has priority 10, is receiving and is tuned to a transponder other
than the requested channel's. -/
def envProv : ProvidesEnv :=
  { providesTransponder := fun _ => true
    devPriority := 10
    receiving := true
    tunedToTransponder := fun _ => false
    hasPid := fun _ => false
    camSlotPresent := false
    canDecrypt := fun _ => false
    frontendReuse := false }

/-- C8, counterexample: with a real priority 50 strictly above the
device's current priority 10, a receiving device tuned to a different
transponder returns TRUE (with needs_detach set), refuting the claim that
the result is false in this situation. -/
theorem C8_counterexample :
    IDLEPRIORITY < 50 ∧ envProv.receiving = true ∧
    envProv.tunedToTransponder chanOne = false ∧
    envProv.providesTransponder chanOne = true ∧
    ProvidesChannel envProv (some chanOne) 50 = (true, true) := by
  decide

/-- C8, amended: for a reachable channel requested at a real (non-idle)
priority on a receiving device tuned to a different transponder,
needs_detach is set to true and the result is hasPriority: true exactly
when the requested priority is strictly greater than the device's current
priority (not unconditionally false as claimed). -/
theorem C8_receiving_other_transponder
    (e : ProvidesEnv) (ch : Channel) (priority : Int)
    (hpt : e.providesTransponder ch = true)
    (hprio : IDLEPRIORITY < priority)
    (hrecv : e.receiving = true)
    (htuned : e.tunedToTransponder ch = false) :
    ProvidesChannel e (some ch) priority =
      (decide (e.devPriority < priority), true) := by
  have hne : ¬ priority = IDLEPRIORITY := by omega
  simp [ProvidesChannel, hpt, hprio, hrecv, htuned, hne]

/-- C8, witness for the amended theorem at priority 50 against device
priority 10. -/
theorem C8_receiving_other_transponder_witness :
    envProv.providesTransponder chanOne = true ∧ IDLEPRIORITY < 50 ∧
    envProv.receiving = true ∧ envProv.tunedToTransponder chanOne = false ∧
    ProvidesChannel envProv (some chanOne) 50 =
      (decide (envProv.devPriority < 50), true) :=
  ⟨rfl, by decide, rfl, rfl,
   C8_receiving_other_transponder envProv chanOne 50 rfl (by decide) rfl rfl⟩

/-- C10: GetTSPacket returns false exactly when the detached
configuration mode is enabled; in detached mode it yields no packet, and
with the ring buffer absent it still returns true with a null data
pointer. -/
theorem C10_gettspacket_true_unless_detached
    (s : DeviceState) (detachedMode : Bool) (cam : Option CamSlot) :
    ((GetTSPacket s detachedMode cam).1 = !detachedMode) ∧
    (GetTSPacket s true cam = (false, none, s)) ∧
    (GetTSPacket { s with tsBuffer := none } false cam =
       (true, none, { s with tsBuffer := none })) := by
  refine ⟨?_, rfl, rfl⟩
  cases detachedMode
  · cases hbuf : s.tsBuffer with
    | none => simp [GetTSPacket, hbuf]
    | some buf =>
        cases cam with
        | none => simp [GetTSPacket, hbuf]
        | some cs => cases hw : cs.wantsTsData <;> simp [GetTSPacket, hbuf, hw]
  · simp [GetTSPacket]

/-- C6, counterexample: in the decrypt delivery path, with two aligned TS
packets (376 bytes) buffered and an identity decrypt transform, a single
GetTSPacket call leaves the delivery cursor at 376 bytes - neither zero
nor 188 - at an externally observable point, refuting the claimed
invariant. -/
theorem C6_counterexample :
    (GetTSPacket sAligned false (some camIdentity)).2.2.bytesDelivered = 376 ∧
    ¬ ((376 : Nat) = 0 ∨ (376 : Nat) = TS_SIZE) := by
  decide

/-- C6, amended: the delivery cursor is drained at the start of every
read before a new run is produced (a successful GetData hands out exactly
the buffer contents past the previously delivered bytes) and after every
completed GetData it is zero or exactly 188; SkipData however sets the
cursor to whatever released count its caller supplies - in the decrypt
path of GetTSPacket the full available run, which may exceed 188 - so the
zero-or-188 bound does not survive SkipData. -/
theorem C6_delivery_cursor
    (s : DeviceState) (buf : List Nat) (c : Bool)
    (hdvr : s.dvrIsOpen = true) (hbuf : s.tsBuffer = some buf) :
    ((GetData s c).2.1.bytesDelivered = 0 ∨
     (GetData s c).2.1.bytesDelivered = TS_SIZE) ∧
    (∀ r, (GetData s c).1 = some r → r = buf.drop s.bytesDelivered) ∧
    (∀ n, (SkipData s n).bytesDelivered = n) := by
  refine ⟨?_, ?_, fun n => rfl⟩
  · simp only [GetData, hdvr, hbuf, if_true]
    split_ifs <;> simp
  · intro r hr
    simp only [GetData, hdvr, hbuf, if_true] at hr
    split_ifs at hr <;> simp_all

/-- C6, witness for the amended theorem at a concrete state. -/
theorem C6_delivery_cursor_witness :
    sAligned.dvrIsOpen = true ∧ sAligned.tsBuffer = some (pkt188 ++ pkt188) ∧
    ((GetData sAligned false).2.1.bytesDelivered = 0 ∨
     (GetData sAligned false).2.1.bytesDelivered = TS_SIZE) :=
  ⟨rfl, rfl, (C6_delivery_cursor sAligned (pkt188 ++ pkt188) false rfl rfl).1⟩

/-- If the first TS sync byte of l sits at index k, the GetData scan loop
started at index i reports i + k whatever the fallback count is. -/
theorem scanLoop_first_sync (l : List Nat) :
    ∀ (k i count : Nat), l[k]? = some TS_SYNC_BYTE →
      (∀ j, j < k → l[j]? ≠ some TS_SYNC_BYTE) →
      scanLoop l i count = i + k := by
  induction l with
  | nil =>
      intro k i count hk _
      simp at hk
  | cons b rest ih =>
      intro k i count hk hmin
      cases k with
      | zero =>
          simp only [List.getElem?_cons_zero, Option.some.injEq] at hk
          simp [scanLoop, hk]
      | succ k =>
          have hb : ¬ b = TS_SYNC_BYTE := by
            have h0 := hmin 0 (Nat.succ_pos k)
            simpa using h0
          have hmin2 : ∀ j, j < k → rest[j]? ≠ some TS_SYNC_BYTE := by
            intro j hj
            have := hmin (j + 1) (Nat.succ_lt_succ hj)
            simpa using this
          have hrest := ih k (i + 1) count (by simpa using hk) hmin2
          simp only [scanLoop, if_neg hb, hrest]
          omega

/-- C7: a non-empty GetData read hands back a run of at least 188 bytes
whose first byte is the TS sync byte; when the first buffered byte is not
the sync byte and the next sync byte sits at offset k+1 of the available
run, the call returns no packet, drops exactly the k+1 bytes before the
sync byte, records the discarded span as a sync-skip diagnostic, and a
retry (given at least 188 remaining bytes) returns the run starting at
the sync byte. -/
theorem C7_resynchronization
    (s : DeviceState) (buf : List Nat)
    (hdvr : s.dvrIsOpen = true) (hbuf : s.tsBuffer = some buf)
    (hbd : s.bytesDelivered = 0) :
    (∀ c r, (GetData s c).1 = some r →
        TS_SIZE ≤ r.length ∧ r.head? = some TS_SYNC_BYTE) ∧
    (∀ k, TS_SIZE ≤ buf.length →
        buf.head? ≠ some TS_SYNC_BYTE →
        buf[k + 1]? = some TS_SYNC_BYTE →
        (∀ j, 1 ≤ j → j < k + 1 → buf[j]? ≠ some TS_SYNC_BYTE) →
        (GetData s false).1 = none ∧
        (GetData s false).2.1.tsBuffer = some (buf.drop (k + 1)) ∧
        (GetData s false).2.1.syncSkipLog = s.syncSkipLog ++ [k + 1] ∧
        (TS_SIZE ≤ buf.length - (k + 1) →
           (GetData (GetData s false).2.1 false).1 = some (buf.drop (k + 1)))) := by
  constructor
  · intro c r hr
    simp only [GetData, hdvr, hbuf, hbd, List.drop_zero, eq_self_iff_true,
      if_true] at hr
    split_ifs at hr with h1 h2 h3
    have h4 : buf.head? = some TS_SYNC_BYTE := not_not.mp h3
    simp only [Option.some.injEq] at hr
    subst hr
    exact ⟨h2, h4⟩
  · intro k hlen hhead hk hmin
    have hget : (buf.drop 1)[k]? = some TS_SYNC_BYTE := by
      rw [List.getElem?_drop]
      simpa [Nat.add_comm] using hk
    have hmin2 : ∀ j, j < k → (buf.drop 1)[j]? ≠ some TS_SYNC_BYTE := by
      intro j hj
      rw [List.getElem?_drop]
      exact hmin (1 + j) (by omega) (by omega)
    have hsk : scanLoop (buf.drop 1) 1 buf.length = k + 1 := by
      have h := scanLoop_first_sync (buf.drop 1) k 1 buf.length hget hmin2
      omega
    rw [List.drop_one] at hsk
    have hmain : GetData s false =
        (none,
         { s with tsBuffer := some (buf.drop (k + 1)),
                  bytesDelivered := 0,
                  syncSkipLog := s.syncSkipLog ++ [k + 1] }, 0) := by
      simp [GetData, hdvr, hbuf, hbd, hlen, hhead, hsk]
    refine ⟨by rw [hmain], by rw [hmain], by rw [hmain], ?_⟩
    intro hlen2
    rw [hmain]
    have hhead2 : (buf.drop (k + 1)).head? = some TS_SYNC_BYTE := by
      rw [List.head?_drop]
      exact hk
    simp [GetData, hdvr, hhead2, List.length_drop, hlen2]

/-- A desynchronized buffer: two garbage bytes before two aligned TS
packets (the spec's desync scenario, widened so that a whole packet
remains after the skip). -/
def bufDesync : List Nat := 0 :: 0 :: (pkt188 ++ pkt188)

/-- A device state holding the desynchronized buffer. -/
def sDesync : DeviceState := { sAligned with tsBuffer := some bufDesync }

/-- C7, witness: on the concrete desynchronized buffer the first read
returns no packet, drops the two garbage bytes recording a 2-byte sync
skip, and the retry returns the run starting at the sync byte. -/
theorem C7_resynchronization_witness :
    bufDesync.head? ≠ some TS_SYNC_BYTE ∧
    bufDesync[2]? = some TS_SYNC_BYTE ∧
    (GetData sDesync false).1 = none ∧
    (GetData sDesync false).2.1.syncSkipLog = [2] ∧
    (GetData (GetData sDesync false).2.1 false).1 = some (bufDesync.drop 2) := by
  have hmin : ∀ j, 1 ≤ j → j < 1 + 1 → bufDesync[j]? ≠ some TS_SYNC_BYTE := by
    intro j h1 h2
    have hj : j = 1 := by omega
    subst hj
    decide
  have h := (C7_resynchronization sDesync bufDesync rfl rfl rfl).2 1
    (by decide) (by decide) (by decide) hmin
  refine ⟨by decide, by decide, h.1, ?_, h.2.2.2 (by decide)⟩
  rw [h.2.2.1]
  rfl

end Satip
